import Mathlib

/-!
Verification development for the OpenFisca core snapshot
(`openfisca_core/columns.py` and `openfisca_core/simulations.py`).

The Python modules are shallowly embedded below:
* the biryani `conv` converter combinators (value-and-error pairs, with
  `None` passing through every test and `pipe` stopping at the first error)
  are embedded as functions `JValue → JValue × Option String`;
* the column classes (`IntCol`, `AgesCol`, `EnumCol`, `Column.to_json`)
  become Lean structures and functions over those converters;
* both sides of the merge conflict in `simulations.py` are embedded: the
  HEAD side (reform-mode `_preproc` / `_compute` over two
  `TaxBenefitSystem` output tables) and the other side (the
  `compute` / `set_entities` / `get_holder_by_name` evaluator).
Python dictionaries are modelled as association lists in insertion order,
looked up with a last-binding-wins lookup (`dlookup`), matching the
semantics of `dict(generator)` where later pairs override earlier ones.
-/

namespace OpenFisca

/-- External JSON-ish values fed to the validation pipelines: Python
`None`, `int`, `basestring` and `bool` (a Python `bool` is an instance of
`int`, which matters for `test_isinstance(int)`). -/
inductive JValue
  | jnull
  | jint (n : Int)
  | jstr (s : String)
  | jbool (b : Bool)
deriving DecidableEq

open JValue

/-- A biryani converter: takes a value, returns the (possibly converted)
value together with `none` (success) or `some error`. -/
def Conv : Type := JValue → JValue × Option String

/-- biryani `pipe`: apply converters in order, stopping at the first
error (later converters, including `default`, never see an error). -/
def pipe (convs : List Conv) : Conv := fun v =>
  convs.foldl
    (fun acc c =>
      match acc.2 with
      | some _ => acc
      | none => c acc.1)
    (v, none)

/-- biryani `test_isinstance(int)` (used by `IntCol.json_to_python`):
`None` passes every biryani test; a Python `bool` is an instance of
`int`. -/
def testIsInstanceInt : Conv := fun v =>
  match v with
  | jnull => (v, none)
  | jint _ => (v, none)
  | jbool _ => (v, none)
  | jstr _ => (v, some "Value is not an instance of int")

/-- biryani `test_isinstance((basestring, int))` (head of the `EnumCol`
pipeline). -/
def testIsInstanceStrInt : Conv := fun v =>
  match v with
  | jnull => (v, none)
  | jint _ => (v, none)
  | jbool _ => (v, none)
  | jstr _ => (v, none)

/-- Drop leading whitespace characters. -/
def dropSpaces : List Char → List Char
  | [] => []
  | c :: cs => if c.isWhitespace then dropSpaces cs else c :: cs

/-- Parse a non-empty run of decimal digits, accumulator style. -/
def parseDigitsAux : List Char → Nat → Option Nat
  | [], acc => some acc
  | c :: cs, acc => if c.isDigit then parseDigitsAux cs (acc * 10 + (c.toNat - 48)) else none

/-- Parse a non-empty all-digit character list. -/
def parseDigits : List Char → Option Nat
  | [] => none
  | cs => parseDigitsAux cs 0

/-- Python `int(string)`: strip surrounding whitespace, allow one
optional sign, require at least one digit. -/
def pyStrToInt (s : String) : Option Int :=
  match dropSpaces (dropSpaces s.toList.reverse).reverse with
  | [] => none
  | c :: rest =>
    if c = '+' then (parseDigits rest).map Int.ofNat
    else if c = '-' then (parseDigits rest).map fun n => -(n : Int)
    else (parseDigits (c :: rest)).map Int.ofNat

/-- biryani `anything_to_int`: `None` passes; ints stay; bools become
0/1; strings parse as Python `int(...)` or produce an error. -/
def anythingToInt : Conv := fun v =>
  match v with
  | jnull => (v, none)
  | jint _ => (v, none)
  | jbool b => (jint (if b then 1 else 0), none)
  | jstr s =>
      match pyStrToInt s with
      | some n => (jint n, none)
      | none => (v, some "Value must be an integer")

/-- biryani `condition(test, ok, error)`: run `test` on the value; on
success run `ok` on the original value, otherwise run `error` on it. -/
def condition (test ok err : Conv) : Conv := fun v =>
  match (test v).2 with
  | none => ok v
  | some _ => err v

/-- biryani `default(constant)`: replace `None` by the constant, leave
every other value unchanged.  It never sees an error, because `pipe`
stops before it when an earlier converter failed. -/
def defaultConv (constant : JValue) : Conv := fun v =>
  match v with
  | jnull => (constant, none)
  | _ => (v, none)

/-- biryani `test_greater_or_equal(0)` as instantiated by
`AgesCol.json_to_python`; only reached after `test_isinstance(int)`. -/
def testGreaterOrEqual (bound : Int) : Conv := fun v =>
  match v with
  | jnull => (v, none)
  | jint n => if bound ≤ n then (v, none) else (v, some "Value must be greater than or equal to the bound")
  | jbool b => if bound ≤ (if b then (1 : Int) else 0) then (v, none) else (v, some "Value must be greater than or equal to the bound")
  | jstr _ => (v, some "Value must be greater than or equal to the bound")

/-- biryani `test_equals(constant)` as instantiated by
`AgesCol.json_to_python`. -/
def testEquals (constant : Int) : Conv := fun v =>
  match v with
  | jnull => (v, none)
  | jint n => if n = constant then (v, none) else (v, some "Value must be equal to the constant")
  | jbool _ => (v, some "Value must be equal to the constant")
  | jstr _ => (v, some "Value must be equal to the constant")

/-- biryani `first_match(*converters)`: apply each converter to the
original value, return the first successful result, else the last
result. -/
def firstMatch : List Conv → Conv
  | [], v => (v, none)
  | [c], v => c v
  | c :: c2 :: cs, v =>
    match c v with
    | (v1, none) => (v1, none)
    | _ => firstMatch (c2 :: cs) v

/-- Split a character list into maximal alphanumeric words, lowercased;
`acc` holds the current word reversed. -/
def splitWords : List Char → List Char → List (List Char)
  | [], acc => if acc = [] then [] else [acc.reverse]
  | c :: cs, acc =>
    if c.isAlpha || c.isDigit then splitWords cs (c.toLower :: acc)
    else if acc = [] then splitWords cs [] else acc.reverse :: splitWords cs []

/-- Join words with single dashes. -/
def joinDash : List (List Char) → List Char
  | [] => []
  | [w] => w
  | w :: w2 :: ws => w ++ '-' :: joinDash (w2 :: ws)

/-- biryani `strings.slugify` restricted to ASCII: lowercase the
alphanumeric characters and collapse every other run of characters into
a single dash, trimming dashes at both ends. -/
def slugify (s : String) : String :=
  ⟨joinDash (splitWords s.toList [])⟩

/-- Last-binding-wins lookup in an association list, mirroring Python
`dict` construction where later pairs override earlier ones. -/
def dlookup {α : Type _} : List (String × α) → String → Option α
  | [], _ => none
  | p :: rest, key =>
    match dlookup rest key with
    | some v => some v
    | none => if p.1 = key then some p.2 else none

/-- Lexicographic comparison of character lists by code point, the
ordering Python 2 uses on byte strings. -/
def strLeChars : List Char → List Char → Bool
  | [], _ => true
  | _ :: _, [] => false
  | a :: as, b :: bs =>
    if a.toNat < b.toNat then true
    else if b.toNat < a.toNat then false
    else strLeChars as bs

/-- String comparison by code points. -/
def strLe (s t : String) : Bool := strLeChars s.toList t.toList

/-- Insertion of one string into a sorted list of strings. -/
def insertSorted (s : String) : List String → List String
  | [] => [s]
  | t :: ts => if strLe s t then s :: t :: ts else t :: insertSorted s ts

/-- Python `sorted` over strings (insertion sort), used by the
`Infinite loop` assertion message of `Simulation.compute`. -/
def sortNames : List String → List String
  | [] => []
  | s :: ss => insertSorted s (sortNames ss)

-- ## columns.py

/-- The `Enum` value held by `EnumCol.enum`: `_vars` maps integer codes
to labels (a Python dict, embedded in iteration order). -/
structure Enum where
  vars : List (Int × String)

/-- Insertion sort of `(code, label)` pairs by code, mirroring Python
`sorted(enum._vars.iteritems())`. -/
def insertByKey (p : Int × String) : List (Int × String) → List (Int × String)
  | [] => [p]
  | q :: qs => if p.1 ≤ q.1 then p :: q :: qs else q :: insertByKey p qs

/-- Python `sorted(enum._vars.iteritems())`. -/
def sortByKey : List (Int × String) → List (Int × String)
  | [] => []
  | p :: ps => insertByKey p (sortByKey ps)

/-- The integer codes of an enumeration (`enum._vars` viewed as a set of
keys, as `conv.test_in(enum._vars)` does). -/
def enumKeys (e : Enum) : List Int := e.vars.map Prod.fst

/-- Python `min(enum._vars.iterkeys())`.  On an empty enumeration Python
raises `ValueError`; the claims only concern non-empty enumerations, so
the `[]` case returns an arbitrary value. -/
def minKey : List (Int × String) → Int
  | [] => 0
  | p :: ps => ps.foldl (fun m q => min m q.1) p.1

/-- The `index_by_slug` dictionary built by `EnumCol.json_to_python`:
`dict((strings.slugify(name), index) for index, name in
sorted(enum._vars.iteritems()))`. -/
def buildIndexBySlug (e : Enum) : List (String × Int) :=
  (sortByKey e.vars).map fun p => (slugify p.2, p.1)

/-- `EnumCol` state relevant to `json_to_python`: the enumeration, the
inherited `_default` (class attribute `0` from `Column` via `IntCol`),
and the lazily cached `index_by_slug` (class attribute `None`). -/
structure EnumCol where
  enum : Option Enum := none
  defaultValue : Option Int := some 0
  indexBySlug : Option (List (String × Int)) := none

/-- The argument of `conv.default(...)` in `EnumCol.json_to_python`:
`self._default if self._default is not None and self._default in
enum._vars else min(enum._vars.iterkeys())`. -/
def enumFallback (defaultValue : Option Int) (e : Enum) : Int :=
  match defaultValue with
  | some d => if d ∈ enumKeys e then d else minKey e.vars
  | none => minKey e.vars

/-- biryani `test_in(enum._vars)`: membership in the dict keys, with
`None` passing through. -/
def testInKeys (e : Enum) : Conv := fun v =>
  match v with
  | jnull => (v, none)
  | jint n => if n ∈ enumKeys e then (v, none) else (v, some "Value must belong to the enumeration")
  | _ => (v, some "Value must belong to the enumeration")

/-- biryani `input_to_slug`: slugify a string, converting an empty slug
to `None`; `None` passes through. -/
def inputToSlug : Conv := fun v =>
  match v with
  | jnull => (v, none)
  | jstr s => if slugify s = "" then (jnull, none) else (jstr (slugify s), none)
  | _ => (v, none)

/-- biryani `test_in(index_by_slug)`: membership in the slug index keys,
with `None` passing through. -/
def testInSlugs (index : List (String × Int)) : Conv := fun v =>
  match v with
  | jnull => (v, none)
  | jstr s => if (dlookup index s).isSome then (v, none) else (v, some "Value must belong to the slug index")
  | _ => (v, some "Value must belong to the slug index")

/-- `conv.function(lambda slug: index_by_slug[slug])`: `None` passes
through; an absent slug would raise `KeyError` in Python but is
unreachable after `test_in(index_by_slug)`. -/
def slugToIndex (index : List (String × Int)) : Conv := fun v =>
  match v with
  | jnull => (v, none)
  | jstr s =>
      match dlookup index s with
      | some i => (jint i, none)
      | none => (v, some "KeyError")
  | _ => (v, some "KeyError")

/-- The converter returned by the `EnumCol.json_to_python` property, as
data: either the no-enumeration pipeline or the enumeration pipeline
with its `_vars`, slug index and `default(...)` fallback code. -/
inductive EnumPipeline
  | noEnum (defaultValue : Option Int)
  | withEnum (e : Enum) (index : List (String × Int)) (fallback : Int)

/-- Run an `EnumCol` pipeline, exactly mirroring the `conv.pipe(...)`
expressions of `EnumCol.json_to_python`. -/
def runPipeline : EnumPipeline → JValue → JValue × Option String
  | .noEnum d, v =>
    pipe [testIsInstanceStrInt, anythingToInt,
      defaultConv (match d with | some n => jint n | none => jnull)] v
  | .withEnum e index fallback, v =>
    pipe [testIsInstanceStrInt,
      condition anythingToInt
        (pipe [anythingToInt, testInKeys e])
        (pipe [inputToSlug, testInSlugs index, slugToIndex index]),
      defaultConv (jint fallback)] v

/-- The `EnumCol.json_to_python` property: reads `self.index_by_slug`,
builds and stores it when it is `None`, and returns the converter
(embedded as `EnumPipeline` data). -/
def EnumCol.jsonToPython (c : EnumCol) : EnumCol × EnumPipeline :=
  match c.enum with
  | none => (c, .noEnum c.defaultValue)
  | some e =>
    match c.indexBySlug with
    | some index => (c, .withEnum e index (enumFallback c.defaultValue e))
    | none =>
      let index := buildIndexBySlug e
      ({ c with indexBySlug := some index }, .withEnum e index (enumFallback c.defaultValue e))

/-- Validate and coerce one value through a (possibly not yet indexed)
`EnumCol`: run the converter returned by the `json_to_python`
property. -/
def EnumCol.convert (c : EnumCol) (v : JValue) : JValue × Option String :=
  runPipeline c.jsonToPython.2 v

/-- `IntCol.json_to_python`: `conv.test_isinstance(int)`. -/
def intColJsonToPython : Conv := testIsInstanceInt

/-- `AgesCol.json_to_python`: `conv.pipe(super().json_to_python,
conv.first_match(conv.test_greater_or_equal(0),
conv.test_equals(-9999)))`. -/
def agesJsonToPython : Conv :=
  pipe [intColJsonToPython, firstMatch [testGreaterOrEqual 0, testEquals (-9999)]]

-- ## simulations.py, lines 654-694 (the `compute` / `set_entities` side
-- of the merge conflict)

/-- A compact legislation snapshot.  The core treats it as opaque; the
only parameter any claim reads is `rate` (spec section 8 reform
scenario). -/
structure CompactLegislation where
  rate : Rat
deriving DecidableEq

/-- Holder state per spec section 3: EMPTY, INPUT (values supplied
directly, never overwritten), or COMPUTED (formula result cached). -/
inductive HolderState
  | empty
  | input (values : List Rat)
  | computed (values : List Rat)
deriving DecidableEq

/-- Modelled from the spec: a Formula Binding (spec section 3 and 4.2);
the class itself lives outside `src/`.  `fn` consumes the resolved input
arrays and the Simulation's legislation snapshot. -/
structure Formula where
  requiredInputs : List String
  fn : List (List Rat) → CompactLegislation → List Rat

/-- Modelled from the spec: an Entity (spec section 3); the class itself
lives outside `src/`.  `columnByName` holds the registered column names
(`entity.column_by_name.iterkeys()`), `holderByName` the per-variable
cache cells (`entity.holder_by_name`). -/
structure Entity where
  columnByName : List String
  holderByName : List (String × HolderState)
  formulaByName : List (String × Formula)
  memberCount : Nat

/-- The `Simulation` class of the non-HEAD side of the merge conflict.
Python's `entity_by_column_name` stores references to `Entity` objects;
the embedding keys entities by their kind in `entities` and stores the
kind in `entityByColumnName`, modelling those shared references. -/
structure Simulation where
  compactLegislation : CompactLegislation
  defaultCompactLegislation : CompactLegislation
  entities : List (String × Entity)
  entityByColumnName : List (String × String)

/-- The pair generator of `Simulation.set_entities`:
`(column_name, entity) for entity in entities.itervalues() for
column_name in entity.column_by_name.iterkeys()`, with the entity
reference replaced by its kind. -/
def ownerPairs : List (String × Entity) → List (String × String)
  | [] => []
  | ke :: rest => (ke.2.columnByName.map fun cn => (cn, ke.1)) ++ ownerPairs rest

/-- `Simulation.set_entities`: store the entities and build the derived
`entity_by_column_name` dictionary once. -/
def Simulation.setEntities (sim : Simulation) (entities : List (String × Entity)) : Simulation :=
  { sim with entities := entities, entityByColumnName := ownerPairs entities }

/-- The failure modes of `Simulation.compute`: the `Infinite loop`
`AssertionError` (the spec's `CyclicDependencyError`), carrying the
sorted in-flight column names exactly as the assertion message does; the
`KeyError` of a dictionary lookup (the spec's `UnknownVariableError` for
an unregistered column name); and exhaustion of the recursion fuel,
modelling Python's unbounded call stack. -/
inductive SimError
  | infiniteLoop (columns : List String)
  | keyError (key : String)
  | outOfGas
deriving DecidableEq

/-- Python `requested_columns_name | {column_name}` (set insertion). -/
def insertName (requested : List String) (columnName : String) : List String :=
  if columnName ∈ requested then requested else requested ++ [columnName]

/-- Overwrite the holder of `columnName` in an entity (dict assignment:
append, with `dlookup` preferring the later binding). -/
def Entity.setHolder (e : Entity) (columnName : String) (h : HolderState) : Entity :=
  { e with holderByName := e.holderByName ++ [(columnName, h)] }

/-- Write back an updated entity under its kind, modelling in-place
mutation of the shared Python `Entity` object. -/
def storeComputed (sim : Simulation) (kind columnName : String) (values : List Rat) : Simulation :=
  { sim with
    entities := sim.entities.map fun ke =>
      if ke.1 = kind then (ke.1, ke.2.setHolder columnName (.computed values)) else ke }

/-- Modelled from the spec: resolve each required input in order through
the supplied compute function (the recursive `Simulation.compute` call
of spec section 4.4 step 4), threading the simulation state. -/
def runDeps (computeFn : Simulation → String → Except SimError (Simulation × List Rat)) :
    Simulation → List String → Except SimError (Simulation × List (List Rat))
  | sim, [] => .ok (sim, [])
  | sim, dep :: rest =>
    match computeFn sim dep with
    | .error err => .error err
    | .ok (sim1, values) =>
      match runDeps computeFn sim1 rest with
      | .error err => .error err
      | .ok (sim2, args) => .ok (sim2, values :: args)

/-- Modelled from the spec: the body of `Entity.compute` (spec section
4.4 steps 2-5), reached from `Simulation.compute` after the cycle
check; `computeFn` is the recursive entry back into
`Simulation.compute`.  A non-EMPTY holder is returned as is (step 3); an
EMPTY holder with a formula recursively computes each required input
with `requested_columns ∪ {column_name}`, invokes the formula with the
collected arrays and the Simulation's legislation, and stores the result
as COMPUTED (step 4); an EMPTY holder without a formula is
default-filled (step 5). -/
def computeInEntity
    (computeFn : Simulation → String → Option (List String) → Except SimError (Simulation × List Rat))
    (sim : Simulation) (columnName : String) (requested : List String) :
    Except SimError (Simulation × List Rat) :=
  match dlookup sim.entityByColumnName columnName with
  | none => .error (.keyError columnName)
  | some kind =>
    match dlookup sim.entities kind with
    | none => .error (.keyError kind)
    | some entity =>
      match dlookup entity.holderByName columnName with
      | some (.input values) => .ok (sim, values)
      | some (.computed values) => .ok (sim, values)
      | _ =>
        match dlookup entity.formulaByName columnName with
        | none => .ok (sim, List.replicate entity.memberCount 0)
        | some formula =>
          match
            runDeps (fun s d => computeFn s d (some (insertName requested columnName)))
              sim formula.requiredInputs with
          | .error err => .error err
          | .ok (sim1, args) =>
            let values := formula.fn args sim1.compactLegislation
            .ok (storeComputed sim1 kind columnName values, values)

/-- `Simulation.compute(column_name, requested_columns_name=None)`
(lines 673-680): a `None` in-flight set becomes the empty set; otherwise
the `assert column_name not in requested_columns_name` fires first, with
a message naming `sorted(requested_columns_name)` (embedded as the
`infiniteLoop` payload); then the call is routed through
`entity_by_column_name[column_name]` to the owning entity (a missing
name is a `KeyError`).  The entity side is `computeInEntity`, modelled
from the spec.  `gas` is recursion fuel standing in for the Python call
stack; the recursion is structural on it. -/
def Simulation.compute : Nat → Simulation → String → Option (List String) →
    Except SimError (Simulation × List Rat)
  | 0, _, _, _ => .error .outOfGas
  | gas + 1, sim, columnName, requested? =>
    match requested? with
    | some requested =>
      if columnName ∈ requested then
        .error (.infiniteLoop (sortNames requested.dedup))
      else
        computeInEntity (fun s d r => Simulation.compute gas s d r) sim columnName requested
    | none => computeInEntity (fun s d r => Simulation.compute gas s d r) sim columnName []

/-- `Simulation.get_holder_by_name(column_name)` without an explicit
default: `entity.holder_by_name[column_name]`, a `KeyError` when
absent. -/
def Simulation.getHolderByName (sim : Simulation) (columnName : String) :
    Except SimError HolderState :=
  match dlookup sim.entityByColumnName columnName with
  | none => .error (.keyError columnName)
  | some kind =>
    match dlookup sim.entities kind with
    | none => .error (.keyError kind)
    | some entity =>
      match dlookup entity.holderByName columnName with
      | none => .error (.keyError columnName)
      | some h => .ok h

/-- `Simulation.get_holder_by_name(column_name, default)` with an
explicit default: `entity.holder_by_name.get(column_name, default)`. -/
def Simulation.getHolderByNameD (sim : Simulation) (columnName : String)
    (dflt : HolderState) : Except SimError HolderState :=
  match dlookup sim.entityByColumnName columnName with
  | none => .error (.keyError columnName)
  | some kind =>
    match dlookup sim.entities kind with
    | none => .error (.keyError kind)
    | some entity => .ok ((dlookup entity.holderByName columnName).getD dflt)

-- ## simulations.py, HEAD side of the merge conflict: reform-mode
-- `Simulation._preproc` (lines 167-210) and `Simulation._compute`
-- (lines 212-252)

namespace Reform

/-- The shared input table (`self.input_table`, a `DataTable`): INPUT
columns and the entity member count. -/
structure InputTable where
  columnByName : List (String × List Rat)
  count : Nat
deriving Inhabited

/-- Modelled from the spec: a `Prestation`'s formula, a pure function of
the resolved input arrays and the two legislation snapshots `_P` and
`_P_default` the `TaxBenefitSystem` was built with (the `Prestation`
formula machinery lives outside `src/`). -/
structure Prestation where
  requiredInputs : List String
  fn : List (List Rat) → CompactLegislation → CompactLegislation → List Rat

/-- Modelled from the spec: a `TaxBenefitSystem` output table (the class
lives outside `src/`): the prestation registry, the two legislation
snapshots it was constructed with, the input table attached by
`set_inputs`, the COMPUTED cache, and the disabled prestation names. -/
structure TaxBenefitSystem where
  prestationByName : List (String × Prestation)
  P : CompactLegislation
  PDefault : CompactLegislation
  inputTable : InputTable
  computed : List (String × List Rat)
  disabled : List String

/-- `TaxBenefitSystem(prestation_by_name, P, P_default, ...)` followed
by `set_inputs(input_table)`: a fresh output table with an empty
COMPUTED cache over the shared input table. -/
def mkTaxBenefitSystem (prestationByName : List (String × Prestation))
    (P PDefault : CompactLegislation) (inputTable : InputTable) : TaxBenefitSystem :=
  { prestationByName := prestationByName, P := P, PDefault := PDefault,
    inputTable := inputTable, computed := [], disabled := [] }

/-- `output_table.disable(disabled_prestations)`: the named prestations
will remain at their default value (docstring of
`Simulation.disable_prestations`). -/
def disable (t : TaxBenefitSystem) (disabled : List String) : TaxBenefitSystem :=
  { t with disabled := disabled }

/-- `output_table_default.reset()`: clear the COMPUTED cache. -/
def reset (t : TaxBenefitSystem) : TaxBenefitSystem :=
  { t with computed := [] }

/-- Modelled from the spec: resolve a list of required inputs in order
through the supplied compute function, threading the table. -/
def runPrestationDeps (computeFn : TaxBenefitSystem → String → TaxBenefitSystem × List Rat) :
    TaxBenefitSystem → List String → TaxBenefitSystem × List (List Rat)
  | t, [] => (t, [])
  | t, name :: rest =>
    let res := computeFn t name
    let res2 := runPrestationDeps computeFn res.1 rest
    (res2.1, res.2 :: res2.2)

/-- Modelled from the spec: compute one column inside one output table
(spec section 4.3/4.4): a cached COMPUTED value or an INPUT column is
returned as is; otherwise the prestation's inputs are resolved
recursively, its formula is invoked with the table's own snapshots, and
the result is stored in this table's COMPUTED cache; a disabled or
unknown column is default-filled.  `gas` is recursion fuel; the
recursion is structural on it. -/
def computePrestation : Nat → TaxBenefitSystem → String → TaxBenefitSystem × List Rat
  | 0, t, _ => (t, [])
  | gas + 1, t, name =>
    match dlookup t.computed name with
    | some values => (t, values)
    | none =>
      match dlookup t.inputTable.columnByName name with
      | some values => (t, values)
      | none =>
        match dlookup t.prestationByName name with
        | none => (t, List.replicate t.inputTable.count 0)
        | some p =>
          if name ∈ t.disabled then (t, List.replicate t.inputTable.count 0)
          else
            let res := runPrestationDeps (computePrestation gas) t p.requiredInputs
            let values := p.fn res.2 res.1.P res.1.PDefault
            ({ res.1 with computed := res.1.computed ++ [(name, values)] }, values)

/-- Modelled from the spec: `output_table.calculate()` computes every
registered prestation in declaration order (memoized through the
COMPUTED cache) and returns the result rows. -/
def calcNames (t : TaxBenefitSystem) : List String → TaxBenefitSystem × List (String × List Rat)
  | [] => (t, [])
  | name :: rest =>
    let res := computePrestation (t.prestationByName.length + 1) t name
    let res2 := calcNames res.1 rest
    (res2.1, (name, res.2) :: res2.2)

/-- Modelled from the spec: `TaxBenefitSystem.calculate`. -/
def calculate (t : TaxBenefitSystem) : TaxBenefitSystem × List (String × List Rat) :=
  calcNames t (t.prestationByName.map Prod.fst)

/-- The HEAD-side `Simulation` attributes that `_preproc` and `_compute`
read: the two snapshots `P` and `P_default`, the reform flag, the input
table, the prestation registry and the disabled prestations. -/
structure Simulation where
  P : CompactLegislation
  PDefault : CompactLegislation
  reforme : Bool
  inputTable : InputTable
  prestationByName : List (String × Prestation)
  disabledPrestations : List String

/-- `Simulation._preproc` (lines 182-197, dropping the io_column
bookkeeping): build `output_table` over `(P, P_default)` and, in reform
mode, a second `output_table_default` over `(P_default, P_default)`
sharing the same input table; outside reform mode `output_table_default`
is the same object as `output_table`; finally disable the disabled
prestations on both. -/
def preproc (s : Simulation) : TaxBenefitSystem × TaxBenefitSystem :=
  let outputTable := mkTaxBenefitSystem s.prestationByName s.P s.PDefault s.inputTable
  let outputTableDefault :=
    if s.reforme then mkTaxBenefitSystem s.prestationByName s.PDefault s.PDefault s.inputTable
    else outputTable
  (disable outputTable s.disabledPrestations, disable outputTableDefault s.disabledPrestations)

/-- `Simulation._compute` (lines 212-252, dropping kwargs, io_column
bookkeeping and `gc.collect()`): run `_preproc`, calculate the actual
table; in reform mode reset and re-disable the default table and
calculate it too, otherwise reuse the actual results. -/
def oldCompute (s : Simulation) :
    (TaxBenefitSystem × TaxBenefitSystem) × (List (String × List Rat) × List (String × List Rat)) :=
  let tables := preproc s
  let actualRes := calculate tables.1
  if s.reforme then
    let defaultTable := disable (reset tables.2) s.disabledPrestations
    let defaultRes := calculate defaultTable
    ((actualRes.1, defaultRes.1), (actualRes.2, defaultRes.2))
  else ((actualRes.1, actualRes.1), (actualRes.2, actualRes.2))

end Reform

-- ## columns.py: `Column.to_json` (lines 82-110) and
-- `EnumCol.to_json` (lines 248-255)

/-- A value in the serialized metadata record. -/
inductive JsonVal
  | s (value : String)
  | i (value : Int)
  | b (value : Bool)
  | labels (value : List (Int × String))
deriving DecidableEq

/-- The attributes of a `Column` descriptor read by `to_json`.  Every
`Option` field is `none` when the attribute is `None` (so the
corresponding key is skipped).  `freq` is special: the `Column` class
defines no `freq` attribute anywhere in `columns.py` and its
`__init__` accepts no `freq` argument, so reading `self.freq` raises
`AttributeError`; `freq = none` models the missing attribute. -/
structure PyColumn where
  jsonType : String
  cerfaField : Option String := none
  defaultValue : Option JsonVal := some (.i 0)
  endDate : Option String := none
  entity : Option String := some "ind"
  freq : Option String := none
  label : Option String := none
  name : Option String := none
  startDate : Option String := none
  valType : Option String := none
deriving DecidableEq

/-- `Column.to_json` (lines 82-110): build the ordered metadata record
`@type`, `cerfa_field`, `default`, `end`, `entity`, `freq` (only when it
differs from `'year'`), `label`, `name`, `start`, `val_type` — except
that the unconditional read of `self.freq` on line 97 raises
`AttributeError` whenever the attribute is missing, which it always is
for descriptors built by this module. -/
def Column.toJson (c : PyColumn) : Except String (List (String × JsonVal)) :=
  let record := [("@type", JsonVal.s c.jsonType)]
  let record := match c.cerfaField with
    | some v => record ++ [("cerfa_field", JsonVal.s v)]
    | none => record
  let record := match c.defaultValue with
    | some v => record ++ [("default", v)]
    | none => record
  let record := match c.endDate with
    | some v => record ++ [("end", JsonVal.s v)]
    | none => record
  let record := match c.entity with
    | some v => record ++ [("entity", JsonVal.s v)]
    | none => record
  match c.freq with
  | none => .error "AttributeError: freq"
  | some freq =>
    let record := if freq ≠ "year" then record ++ [("freq", JsonVal.s freq)] else record
    let record := match c.label with
      | some v => record ++ [("label", JsonVal.s v)]
      | none => record
    let record := match c.name with
      | some v => record ++ [("name", JsonVal.s v)]
      | none => record
    let record := match c.startDate with
      | some v => record ++ [("start", JsonVal.s v)]
      | none => record
    let record := match c.valType with
      | some v => record ++ [("val_type", JsonVal.s v)]
      | none => record
    .ok record

/-- `EnumCol.to_json` (lines 248-255): the `Column.to_json` record plus,
when an enumeration is present, the `labels` table
`OrderedDict((index, label) for label, index in self.enum)`. -/
def EnumCol.toJson (c : PyColumn) (enum : Option Enum) : Except String (List (String × JsonVal)) :=
  match Column.toJson c with
  | .error err => .error err
  | .ok record =>
    match enum with
    | some e => .ok (record ++ [("labels", JsonVal.labels e.vars)])
    | none => .ok record

/-- A plain `IntCol()` descriptor (`json_type = 'Integer'`, `_default =
0`, `entity = 'ind'`), the concrete failing input for `to_json`. -/
def intColPlain : PyColumn := { jsonType := "Integer" }

-- ## Concrete scenarios used by the witnesses

/-- The spec section 8 enumeration `{0: "single", 1: "married"}`. -/
def enumMarital : Enum := ⟨[(0, "single"), (1, "married")]⟩

/-- A fresh `EnumCol` over `enumMarital`, with the class defaults
`_default = 0` and `index_by_slug = None`. -/
def maritalCol : EnumCol := { enum := some enumMarital }

/-- One entity whose three columns form the dependency cycle
A → B → C → A (each formula reads the next variable). -/
def entityCycle : Entity :=
  { columnByName := ["A", "B", "C"]
    holderByName := []
    formulaByName :=
      [("A", ⟨["B"], fun args _ => args.headD []⟩),
       ("B", ⟨["C"], fun args _ => args.headD []⟩),
       ("C", ⟨["A"], fun args _ => args.headD []⟩)]
    memberCount := 3 }

/-- A simulation holding only `entityCycle`. -/
def simCycle : Simulation :=
  Simulation.setEntities ⟨⟨1/10⟩, ⟨1/10⟩, [], []⟩ [("individual", entityCycle)]

/-- The spec section 8 scenario entity: three members, INPUT `salary`
`[1000, 0, 500]`, formula `tax = salary * rate`. -/
def entityPayroll : Entity :=
  { columnByName := ["salary", "tax"]
    holderByName := [("salary", .input [1000, 0, 500])]
    formulaByName :=
      [("tax", ⟨["salary"], fun args legislation => (args.headD []).map (· * legislation.rate)⟩)]
    memberCount := 3 }

/-- A simulation holding only `entityPayroll`, with `rate = 0.1`. -/
def simPayroll : Simulation :=
  Simulation.setEntities ⟨⟨1/10⟩, ⟨1/10⟩, [], []⟩ [("individual", entityPayroll)]

/-- The spec section 8 reform scenario for the HEAD-side `Simulation`:
INPUT `salary` `[1000, 0, 500]`, `tax = salary * rate`,
`legislation.rate = 0.1`, `default_legislation.rate = 0.2`, reform mode
on. -/
def simReform : Reform.Simulation :=
  { P := ⟨1/10⟩
    PDefault := ⟨2/10⟩
    reforme := true
    inputTable := ⟨[("salary", [1000, 0, 500])], 3⟩
    prestationByName :=
      [("tax", ⟨["salary"], fun args actual _ => (args.headD []).map (· * actual.rate)⟩)]
    disabledPrestations := [] }

-- ## Helper lemmas

theorem mem_insertSorted (x s : String) (l : List String) :
    x ∈ insertSorted s l ↔ x = s ∨ x ∈ l := by
  induction l with
  | nil => simp [insertSorted]
  | cons t ts ih =>
    simp only [insertSorted]
    split
    · simp
    · simp only [List.mem_cons, ih]
      tauto

theorem mem_sortNames (x : String) (l : List String) : x ∈ sortNames l ↔ x ∈ l := by
  induction l with
  | nil => simp [sortNames]
  | cons s ss ih => simp [sortNames, mem_insertSorted, ih]

theorem dlookup_append {α : Type _} (l1 l2 : List (String × α)) (k : String) :
    dlookup (l1 ++ l2) k =
      match dlookup l2 k with
      | some v => some v
      | none => dlookup l1 k := by
  induction l1 with
  | nil => cases h2 : dlookup l2 k <;> simp [dlookup, h2]
  | cons p rest ih =>
    cases h2 : dlookup l2 k <;> simp [dlookup, ih, h2]

theorem dlookup_ownerList (cols : List String) (kind cn : String) :
    dlookup (cols.map fun c => (c, kind)) cn = if cn ∈ cols then some kind else none := by
  induction cols with
  | nil => simp [dlookup]
  | cons c cs ih =>
    simp only [List.map, dlookup, ih, List.mem_cons]
    by_cases h1 : cn ∈ cs
    · simp [h1]
    · by_cases h2 : cn = c
      · subst h2; simp [h1]
      · simp [h1, h2, Ne.symm h2]

theorem ownerPairs_sound (entities : List (String × Entity)) (cn kind' : String)
    (h : dlookup (ownerPairs entities) cn = some kind') :
    ∃ e', (kind', e') ∈ entities ∧ cn ∈ e'.columnByName := by
  induction entities with
  | nil => simp [ownerPairs, dlookup] at h
  | cons ke rest ih =>
    rw [ownerPairs, dlookup_append] at h
    cases hr : dlookup (ownerPairs rest) cn with
    | some k2 =>
      rw [hr] at h
      obtain ⟨e', hmem, hcn⟩ := ih (hr.trans h)
      exact ⟨e', List.mem_cons_of_mem ke hmem, hcn⟩
    | none =>
      rw [hr, dlookup_ownerList] at h
      by_cases hc : cn ∈ ke.2.columnByName
      · rw [if_pos hc] at h
        exact ⟨ke.2, by simp [← Option.some_inj.mp h], hc⟩
      · rw [if_neg hc] at h
        cases h

theorem ownerPairs_complete (entities : List (String × Entity)) (kind : String)
    (e : Entity) (cn : String) (hmem : (kind, e) ∈ entities) (hcn : cn ∈ e.columnByName) :
    (dlookup (ownerPairs entities) cn).isSome = true := by
  induction entities with
  | nil => cases hmem
  | cons ke rest ih =>
    rw [ownerPairs, dlookup_append]
    cases hr : dlookup (ownerPairs rest) cn with
    | some k2 => simp
    | none =>
      rcases List.mem_cons.mp hmem with heq | hrest
      · rw [dlookup_ownerList, ← heq] at *
        simp [hcn]
      · have := ih hrest
        rw [hr] at this
        cases this

theorem storeComputed_ebcn (sim : Simulation) (kind columnName : String) (values : List Rat) :
    (storeComputed sim kind columnName values).entityByColumnName = sim.entityByColumnName := rfl

theorem runDeps_preserves_ebcn
    (computeFn : Simulation → String → Except SimError (Simulation × List Rat))
    (hf : ∀ s d s' vs, computeFn s d = .ok (s', vs) → s'.entityByColumnName = s.entityByColumnName) :
    ∀ deps sim sim' args, runDeps computeFn sim deps = .ok (sim', args) →
      sim'.entityByColumnName = sim.entityByColumnName := by
  intro deps
  induction deps with
  | nil =>
    intro sim sim' args h
    simp only [runDeps] at h
    cases h
    rfl
  | cons dep rest ih =>
    intro sim sim' args h
    simp only [runDeps] at h
    cases hc : computeFn sim dep with
    | error err => rw [hc] at h; cases h
    | ok p =>
      obtain ⟨sim1, values1⟩ := p
      rw [hc] at h
      dsimp only at h
      cases hr : runDeps computeFn sim1 rest with
      | error err => rw [hr] at h; cases h
      | ok q =>
        obtain ⟨sim2, args2⟩ := q
        rw [hr] at h
        dsimp only at h
        cases h
        exact (ih sim1 _ _ hr).trans (hf sim dep sim1 values1 hc)

theorem computeInEntity_preserves_ebcn
    (computeFn : Simulation → String → Option (List String) → Except SimError (Simulation × List Rat))
    (hf : ∀ s d r s' vs, computeFn s d r = .ok (s', vs) →
      s'.entityByColumnName = s.entityByColumnName)
    (sim : Simulation) (columnName : String) (requested : List String)
    (sim' : Simulation) (vs : List Rat)
    (h : computeInEntity computeFn sim columnName requested = .ok (sim', vs)) :
    sim'.entityByColumnName = sim.entityByColumnName := by
  simp only [computeInEntity] at h
  cases h1 : dlookup sim.entityByColumnName columnName with
  | none => rw [h1] at h; cases h
  | some kind =>
    rw [h1] at h
    dsimp only at h
    cases h2 : dlookup sim.entities kind with
    | none => rw [h2] at h; cases h
    | some entity =>
      rw [h2] at h
      dsimp only at h
      have formulaCase : ∀ hrem : Except SimError (Simulation × List Rat),
          hrem = (match dlookup entity.formulaByName columnName with
            | none => .ok (sim, List.replicate entity.memberCount 0)
            | some formula =>
              match runDeps (fun s d => computeFn s d (some (insertName requested columnName)))
                  sim formula.requiredInputs with
              | .error err => .error err
              | .ok (sim1, args) =>
                .ok (storeComputed sim1 kind columnName (formula.fn args sim1.compactLegislation),
                  formula.fn args sim1.compactLegislation)) →
          hrem = .ok (sim', vs) → sim'.entityByColumnName = sim.entityByColumnName := by
        intro hrem hdef hok
        rw [hdef] at hok
        cases h4 : dlookup entity.formulaByName columnName with
        | none => rw [h4] at hok; cases hok; rfl
        | some formula =>
          rw [h4] at hok
          dsimp only at hok
          cases h5 : runDeps (fun s d => computeFn s d (some (insertName requested columnName)))
              sim formula.requiredInputs with
          | error err => rw [h5] at hok; cases hok
          | ok p =>
            obtain ⟨sim1, args1⟩ := p
            rw [h5] at hok
            dsimp only at hok
            cases hok
            exact (storeComputed_ebcn sim1 kind columnName _).trans
              (runDeps_preserves_ebcn _ (fun s d s' vs hsd => hf s d _ s' vs hsd)
                formula.requiredInputs sim sim1 args1 h5)
      cases h3 : dlookup entity.holderByName columnName with
      | some holder =>
        cases holder with
        | empty =>
          rw [h3] at h
          exact formulaCase _ rfl h
        | input values => rw [h3] at h; dsimp only at h; cases h; rfl
        | computed values => rw [h3] at h; dsimp only at h; cases h; rfl
      | none =>
        rw [h3] at h
        exact formulaCase _ rfl h

theorem compute_preserves_ebcn : ∀ (gas : Nat) (sim : Simulation) (columnName : String)
    (requested? : Option (List String)) (sim' : Simulation) (vs : List Rat),
    Simulation.compute gas sim columnName requested? = .ok (sim', vs) →
    sim'.entityByColumnName = sim.entityByColumnName := by
  intro gas
  induction gas with
  | zero => intro sim cn req? sim' vs h; cases h
  | succ g ih =>
    intro sim cn req? sim' vs h
    simp only [Simulation.compute] at h
    cases req? with
    | none => exact computeInEntity_preserves_ebcn _ (fun s d r => ih s d r) sim cn [] sim' vs h
    | some requested =>
      dsimp only at h
      by_cases hmem : cn ∈ requested
      · rw [if_pos hmem] at h; cases h
      · rw [if_neg hmem] at h
        exact computeInEntity_preserves_ebcn _ (fun s d r => ih s d r) sim cn requested sim' vs h


-- ## Claim theorems

/-- Claim C1: a call `Simulation.compute(column_name, requested_columns)`
with `column_name` already in the in-flight set fails immediately with
the cyclic-dependency error (the `Infinite loop` assertion), whose
payload names the full in-flight set (sorted, with exactly the members
of `requested_columns`).  The statement holds for every simulation and
every positive fuel value — in particular for fuel `1`, where any
recursive dependency computation would necessarily end in `outOfGas` —
so the error is raised before any recursion is attempted. -/
theorem compute_cycle_error (gas : Nat) (sim : Simulation) (columnName : String)
    (requested : List String) (h : columnName ∈ requested) :
    Simulation.compute (gas + 1) sim columnName (some requested)
      = .error (.infiniteLoop (sortNames requested.dedup))
    ∧ ∀ x : String, x ∈ sortNames requested.dedup ↔ x ∈ requested := by
  constructor
  · simp [Simulation.compute, h]
  · intro x
    rw [mem_sortNames]
    exact List.mem_dedup

/-- Witness for C1, on the spec's A → B → C → A dependency chain: the
direct in-flight hit (via the theorem), and the fact that an external
request for any of A, B or C runs into the error naming all three. -/
theorem compute_cycle_error_witness :
    "A" ∈ ["A", "B", "C"]
    ∧ Simulation.compute 1 simCycle "A" (some ["A", "B", "C"])
        = .error (.infiniteLoop (sortNames (["A", "B", "C"] : List String).dedup))
    ∧ sortNames (["A", "B", "C"] : List String).dedup = ["A", "B", "C"]
    ∧ Simulation.compute 9 simCycle "A" none = .error (.infiniteLoop ["A", "B", "C"])
    ∧ Simulation.compute 9 simCycle "B" none = .error (.infiniteLoop ["A", "B", "C"])
    ∧ Simulation.compute 9 simCycle "C" none = .error (.infiniteLoop ["A", "B", "C"]) :=
  ⟨by decide,
   (compute_cycle_error 0 simCycle "A" ["A", "B", "C"] (by decide)).1,
   by decide, by rfl, by rfl, by rfl⟩

/-- Claim C4: a `compute` call whose column name is not in the in-flight
set and is owned by no entity (absent from `entity_by_column_name`)
fails with the unknown-variable error (`KeyError` on the dictionary
lookup).  The error carries no updated simulation state — the caller's
`Simulation` value is untouched, so subsequent requests behave exactly
as before the failed one. -/
theorem compute_unknown_variable_error (gas : Nat) (sim : Simulation)
    (columnName : String) (requested? : Option (List String))
    (hreq : ∀ r, requested? = some r → columnName ∉ r)
    (hown : dlookup sim.entityByColumnName columnName = none) :
    Simulation.compute (gas + 1) sim columnName requested? = .error (.keyError columnName) := by
  cases requested? with
  | none => simp [Simulation.compute, computeInEntity, hown]
  | some requested =>
    have hmem : columnName ∉ requested := hreq requested rfl
    simp [Simulation.compute, computeInEntity, hown, hmem]

/-- Witness for C4: `simPayroll` owns `salary` and `tax` only, so an
external request for `unknown` fails with the `KeyError`, and the same
`simPayroll` value still computes `tax` fine afterwards. -/
theorem compute_unknown_variable_error_witness :
    (∀ r : List String, (none : Option (List String)) = some r → "unknown" ∉ r)
    ∧ dlookup simPayroll.entityByColumnName "unknown" = none
    ∧ Simulation.compute 1 simPayroll "unknown" none = .error (.keyError "unknown") :=
  ⟨(fun r hr => nomatch hr), by rfl,
   compute_unknown_variable_error 0 simPayroll "unknown" none (fun r hr => nomatch hr) (by rfl)⟩

/-- Claim C7: after `set_entities(entities)`, every column name
registered under any entity is a key of the derived
`entity_by_column_name` mapping, and it is mapped to exactly one entity
— one whose column registry contains the name (`dlookup` returns at
most one binding, so the mapping is single-valued by construction);
moreover no `compute` call ever modifies the mapping: whenever a
`compute` call succeeds with an updated simulation state, the mapping of
that state is the one built at `set_entities` time. -/
theorem owner_mapping_correct_and_stable (sim : Simulation)
    (entities : List (String × Entity)) (kind : String) (e : Entity) (cn : String)
    (hmem : (kind, e) ∈ entities) (hcn : cn ∈ e.columnByName) :
    (∃ kind' e', dlookup (sim.setEntities entities).entityByColumnName cn = some kind'
       ∧ (kind', e') ∈ entities ∧ cn ∈ e'.columnByName)
    ∧ (∀ gas cn2 requested? sim' vs,
        Simulation.compute gas (sim.setEntities entities) cn2 requested? = .ok (sim', vs) →
        sim'.entityByColumnName = (sim.setEntities entities).entityByColumnName) := by
  constructor
  · have hc := ownerPairs_complete entities kind e cn hmem hcn
    obtain ⟨kind', hk⟩ := Option.isSome_iff_exists.mp hc
    obtain ⟨e', he, hcn'⟩ := ownerPairs_sound entities cn kind' hk
    exact ⟨kind', e', hk, he, hcn'⟩
  · intro gas cn2 requested? sim' vs h
    exact compute_preserves_ebcn gas _ cn2 requested? sim' vs h

/-- Witness for C7, at the payroll scenario: `salary` is registered
under the `individual` entity, and the conclusion holds there. -/
theorem owner_mapping_correct_and_stable_witness :
    ("individual", entityPayroll) ∈ [("individual", entityPayroll)]
    ∧ "salary" ∈ entityPayroll.columnByName
    ∧ ((∃ kind' e',
          dlookup (Simulation.setEntities ⟨⟨1/10⟩, ⟨1/10⟩, [], []⟩
              [("individual", entityPayroll)]).entityByColumnName "salary" = some kind'
          ∧ (kind', e') ∈ [("individual", entityPayroll)] ∧ "salary" ∈ e'.columnByName)
        ∧ (∀ gas cn2 requested? sim' vs,
            Simulation.compute gas (Simulation.setEntities ⟨⟨1/10⟩, ⟨1/10⟩, [], []⟩
                [("individual", entityPayroll)]) cn2 requested? = .ok (sim', vs) →
            sim'.entityByColumnName = (Simulation.setEntities ⟨⟨1/10⟩, ⟨1/10⟩, [], []⟩
                [("individual", entityPayroll)]).entityByColumnName)) :=
  ⟨List.mem_singleton.mpr rfl, by decide,
   owner_mapping_correct_and_stable ⟨⟨1/10⟩, ⟨1/10⟩, [], []⟩ [("individual", entityPayroll)]
     "individual" entityPayroll "salary" (List.mem_singleton.mpr rfl) (by decide)⟩

/-- Claim C10: for a column owned by some entity,
`get_holder_by_name(column_name)` without an explicit default raises
`KeyError` when the entity has no holder for the name, while the
two-argument form returns the supplied default; when a holder exists,
both call forms return it. -/
theorem get_holder_by_name_spec (sim : Simulation) (cn kind : String) (e : Entity)
    (dflt : HolderState)
    (hk : dlookup sim.entityByColumnName cn = some kind)
    (he : dlookup sim.entities kind = some e) :
    (dlookup e.holderByName cn = none →
       sim.getHolderByName cn = .error (.keyError cn)
       ∧ sim.getHolderByNameD cn dflt = .ok dflt)
    ∧ (∀ h, dlookup e.holderByName cn = some h →
       sim.getHolderByName cn = .ok h ∧ sim.getHolderByNameD cn dflt = .ok h) := by
  constructor
  · intro hn
    simp [Simulation.getHolderByName, Simulation.getHolderByNameD, hk, he, hn]
  · intro h hh
    simp [Simulation.getHolderByName, Simulation.getHolderByNameD, hk, he, hh]

/-- Witness for C10, at the payroll scenario: `tax` has no holder yet
(error without a default, the default with one), `salary` has an INPUT
holder (both call forms return it). -/
theorem get_holder_by_name_spec_witness :
    dlookup simPayroll.entityByColumnName "tax" = some "individual"
    ∧ dlookup simPayroll.entities "individual" = some entityPayroll
    ∧ dlookup entityPayroll.holderByName "tax" = none
    ∧ simPayroll.getHolderByName "tax" = .error (.keyError "tax")
    ∧ simPayroll.getHolderByNameD "tax" .empty = .ok .empty
    ∧ dlookup entityPayroll.holderByName "salary" = some (.input [1000, 0, 500])
    ∧ simPayroll.getHolderByName "salary" = .ok (.input [1000, 0, 500])
    ∧ simPayroll.getHolderByNameD "salary" .empty = .ok (.input [1000, 0, 500]) := by
  have h1 := (get_holder_by_name_spec simPayroll "tax" "individual" entityPayroll .empty
    (by rfl) (by rfl)).1 (by rfl)
  have h2 := (get_holder_by_name_spec simPayroll "salary" "individual" entityPayroll .empty
    (by rfl) (by rfl)).2 (.input [1000, 0, 500]) (by rfl)
  exact ⟨by rfl, by rfl, by rfl, h1.1, h1.2, by rfl, h2.1, h2.2⟩



/-- Claim C2: in reform mode (`reforme = true`), `_preproc` builds two
output tables that share the same input table and own independent,
initially empty COMPUTED caches — the actual one under snapshot `P`,
the baseline one under `P_default` — and `_compute` evaluates each
table separately: the whole run (final tables, caches included, and both
result sets) equals calculating two fresh tables, one a pure function of
`(prestations, P, inputs)` and the other of
`(prestations, P_default, inputs)`.  In particular no COMPUTED cache
entry produced under one snapshot can satisfy a request under the
other: the baseline evaluation starts from an empty cache (after
`reset`) and never sees the actual table at all, and conversely. -/
theorem reform_independent_caches (s : Reform.Simulation) (h : s.reforme = true) :
    ((Reform.preproc s).1.inputTable = s.inputTable
      ∧ (Reform.preproc s).2.inputTable = s.inputTable
      ∧ (Reform.preproc s).1.computed = []
      ∧ (Reform.preproc s).2.computed = []
      ∧ (Reform.preproc s).1.P = s.P
      ∧ (Reform.preproc s).2.P = s.PDefault)
    ∧ Reform.oldCompute s =
        (((Reform.calculate (Reform.disable
            (Reform.mkTaxBenefitSystem s.prestationByName s.P s.PDefault s.inputTable)
            s.disabledPrestations)).1,
          (Reform.calculate (Reform.disable
            (Reform.mkTaxBenefitSystem s.prestationByName s.PDefault s.PDefault s.inputTable)
            s.disabledPrestations)).1),
         ((Reform.calculate (Reform.disable
            (Reform.mkTaxBenefitSystem s.prestationByName s.P s.PDefault s.inputTable)
            s.disabledPrestations)).2,
          (Reform.calculate (Reform.disable
            (Reform.mkTaxBenefitSystem s.prestationByName s.PDefault s.PDefault s.inputTable)
            s.disabledPrestations)).2)) := by
  refine ⟨⟨?_, ?_, ?_, ?_, ?_, ?_⟩, ?_⟩ <;>
    simp [Reform.preproc, Reform.oldCompute, h, Reform.reset, Reform.disable,
      Reform.mkTaxBenefitSystem]

/-- Witness for C2, at the spec section 8 reform scenario
(`rate = 0.1` versus `0.2`, salary `[1000, 0, 500]`): the theorem
applies, the two result sets are `[100, 0, 50]` and `[200, 0, 100]`,
and after the run each table's cache holds exactly its own result —
neither cache received the other's entry. -/
theorem reform_independent_caches_witness :
    simReform.reforme = true
    ∧ (Reform.oldCompute simReform).2.1 = [("tax", [100, 0, 50])]
    ∧ (Reform.oldCompute simReform).2.2 = [("tax", [200, 0, 100])]
    ∧ (Reform.oldCompute simReform).1.1.computed = [("tax", [100, 0, 50])]
    ∧ (Reform.oldCompute simReform).1.2.computed = [("tax", [200, 0, 100])]
    ∧ (((Reform.preproc simReform).1.inputTable = simReform.inputTable
         ∧ (Reform.preproc simReform).2.inputTable = simReform.inputTable
         ∧ (Reform.preproc simReform).1.computed = []
         ∧ (Reform.preproc simReform).2.computed = []
         ∧ (Reform.preproc simReform).1.P = simReform.P
         ∧ (Reform.preproc simReform).2.P = simReform.PDefault)
       ∧ Reform.oldCompute simReform =
          (((Reform.calculate (Reform.disable
              (Reform.mkTaxBenefitSystem simReform.prestationByName simReform.P
                simReform.PDefault simReform.inputTable) simReform.disabledPrestations)).1,
            (Reform.calculate (Reform.disable
              (Reform.mkTaxBenefitSystem simReform.prestationByName simReform.PDefault
                simReform.PDefault simReform.inputTable) simReform.disabledPrestations)).1),
           ((Reform.calculate (Reform.disable
              (Reform.mkTaxBenefitSystem simReform.prestationByName simReform.P
                simReform.PDefault simReform.inputTable) simReform.disabledPrestations)).2,
            (Reform.calculate (Reform.disable
              (Reform.mkTaxBenefitSystem simReform.prestationByName simReform.PDefault
                simReform.PDefault simReform.inputTable) simReform.disabledPrestations)).2))) := by
  have hActual : ([1000, 0, 500] : List Rat).map (· * (1/10)) = [100, 0, 50] := by
    simp only [List.map]
    norm_num
  have hBaseline : ([1000, 0, 500] : List Rat).map (· * (2/10)) = [200, 0, 100] := by
    simp only [List.map]
    norm_num
  refine ⟨rfl, ?_, ?_, ?_, ?_, reform_independent_caches simReform rfl⟩
  · calc (Reform.oldCompute simReform).2.1
        = [("tax", ([1000, 0, 500] : List Rat).map (· * (1/10)))] := by rfl
      _ = [("tax", [100, 0, 50])] := by rw [hActual]
  · calc (Reform.oldCompute simReform).2.2
        = [("tax", ([1000, 0, 500] : List Rat).map (· * (2/10)))] := by rfl
      _ = [("tax", [200, 0, 100])] := by rw [hBaseline]
  · calc (Reform.oldCompute simReform).1.1.computed
        = [("tax", ([1000, 0, 500] : List Rat).map (· * (1/10)))] := by rfl
      _ = [("tax", [100, 0, 50])] := by rw [hActual]
  · calc (Reform.oldCompute simReform).1.2.computed
        = [("tax", ([1000, 0, 500] : List Rat).map (· * (2/10)))] := by rfl
      _ = [("tax", [200, 0, 100])] := by rw [hBaseline]



/-- Claim C6: the age-like validation pipeline (`AgesCol`, default
sentinel `-9999`) succeeds on an integer input exactly when the input is
`≥ 0` or equal to `-9999`; every other (negative) integer input produces
a validation error. -/
theorem ages_validation_iff (n : Int) :
    (agesJsonToPython (JValue.jint n)).2 = none ↔ (0 ≤ n ∨ n = -9999) := by
  by_cases h1 : 0 ≤ n
  · simp [agesJsonToPython, pipe, intColJsonToPython, testIsInstanceInt, firstMatch,
      testGreaterOrEqual, testEquals, h1]
  · by_cases h2 : n = -9999
    · simp [agesJsonToPython, pipe, intColJsonToPython, testIsInstanceInt, firstMatch,
        testGreaterOrEqual, testEquals, h1, h2]
    · simp [agesJsonToPython, pipe, intColJsonToPython, testIsInstanceInt, firstMatch,
        testGreaterOrEqual, testEquals, h1, h2]

/-- Claim C5: over a non-trivial enumeration, the `EnumCol` pipeline
accepts an integer input exactly when it belongs to the enumeration's
code set (returning that code unchanged), and coerces a string that does
not parse as an integer by slugifying it and returning the code its slug
maps to in the lazily built index. -/
theorem enum_accepts_code_or_label (c : EnumCol) (e : Enum)
    (henum : c.enum = some e) (hidx : c.indexBySlug = none) :
    (∀ n : Int, c.convert (JValue.jint n) = (JValue.jint n, none) ↔ n ∈ enumKeys e)
    ∧ (∀ s : String, pyStrToInt s = none → slugify s ≠ "" →
        ∀ i : Int, dlookup (buildIndexBySlug e) (slugify s) = some i →
          c.convert (JValue.jstr s) = (JValue.jint i, none)) := by
  constructor
  · intro n
    by_cases hmem : n ∈ enumKeys e <;>
      simp [EnumCol.convert, EnumCol.jsonToPython, henum, hidx, runPipeline, pipe,
        testIsInstanceStrInt, condition, anythingToInt, testInKeys, defaultConv, hmem]
  · intro s hs hslug i hi
    simp [EnumCol.convert, EnumCol.jsonToPython, henum, hidx, runPipeline, pipe,
      testIsInstanceStrInt, condition, anythingToInt, inputToSlug, testInSlugs,
      slugToIndex, defaultConv, hs, hslug, hi]

/-- Witness for C5, at the spec example: enumeration
`{0: "single", 1: "married"}`, mixed-case label `"Married"` coerces to
`1`, and code `1` is accepted as itself. -/
theorem enum_accepts_code_or_label_witness :
    maritalCol.enum = some enumMarital
    ∧ maritalCol.indexBySlug = none
    ∧ pyStrToInt "Married" = none
    ∧ slugify "Married" = "married"
    ∧ dlookup (buildIndexBySlug enumMarital) "married" = some 1
    ∧ maritalCol.convert (JValue.jstr "Married") = (JValue.jint 1, none)
    ∧ maritalCol.convert (JValue.jint 1) = (JValue.jint 1, none) := by
  have h := enum_accepts_code_or_label maritalCol enumMarital rfl rfl
  refine ⟨rfl, rfl, by decide, by decide, by decide, ?_, ?_⟩
  · exact h.2 "Married" (by decide) (by decide) 1 (by decide)
  · exact (h.1 1).mpr (by decide)

/-- Counterexample to claim C3 as stated: with enumeration
`{0: "single", 1: "married"}` and (valid) default code `0`, the invalid
integer code `7` does NOT fall back to the default — the pipeline stops
at `test_in(enum._vars)` with an error, and `conv.default(...)` is never
reached, because biryani's `pipe` short-circuits on the first error. -/
theorem enum_invalid_code_error_cex :
    (maritalCol.convert (JValue.jint 7)).2.isSome = true
    ∧ maritalCol.convert (JValue.jint 7) ≠ (JValue.jint 0, none) := by
  constructor <;> decide

/-- Claim C3 as amended: the fallback to the descriptor default (when it
is a valid code) or to the lowest defined code applies only to an ABSENT
input (`None`); an invalid input is an error, not a fallback: an integer
code outside the enumeration's code set fails, and so does a
non-integer label whose (non-empty) slug is not in the label index. -/
theorem enum_fallback_only_on_absent (c : EnumCol) (e : Enum)
    (henum : c.enum = some e) (hidx : c.indexBySlug = none) (_hne : e.vars ≠ []) :
    c.convert JValue.jnull = (JValue.jint (enumFallback c.defaultValue e), none)
    ∧ (∀ d : Int, c.defaultValue = some d → d ∈ enumKeys e →
        c.convert JValue.jnull = (JValue.jint d, none))
    ∧ (∀ d : Int, c.defaultValue = some d → d ∉ enumKeys e →
        c.convert JValue.jnull = (JValue.jint (minKey e.vars), none))
    ∧ (∀ n : Int, n ∉ enumKeys e → (c.convert (JValue.jint n)).2.isSome = true)
    ∧ (∀ s : String, pyStrToInt s = none → slugify s ≠ "" →
        dlookup (buildIndexBySlug e) (slugify s) = none →
        (c.convert (JValue.jstr s)).2.isSome = true) := by
  refine ⟨?_, ?_, ?_, ?_, ?_⟩
  · simp [EnumCol.convert, EnumCol.jsonToPython, henum, hidx, runPipeline, pipe,
      testIsInstanceStrInt, condition, anythingToInt, testInKeys, defaultConv]
  · intro d hd hmem
    simp [EnumCol.convert, EnumCol.jsonToPython, henum, hidx, runPipeline, pipe,
      testIsInstanceStrInt, condition, anythingToInt, testInKeys, defaultConv,
      enumFallback, hd, hmem]
  · intro d hd hmem
    simp [EnumCol.convert, EnumCol.jsonToPython, henum, hidx, runPipeline, pipe,
      testIsInstanceStrInt, condition, anythingToInt, testInKeys, defaultConv,
      enumFallback, hd, hmem]
  · intro n hmem
    simp [EnumCol.convert, EnumCol.jsonToPython, henum, hidx, runPipeline, pipe,
      testIsInstanceStrInt, condition, anythingToInt, testInKeys, defaultConv, hmem]
  · intro s hs hslug hi
    simp [EnumCol.convert, EnumCol.jsonToPython, henum, hidx, runPipeline, pipe,
      testIsInstanceStrInt, condition, anythingToInt, inputToSlug, testInSlugs,
      slugToIndex, defaultConv, hs, hslug, hi]

/-- Witness for the amended C3: on `{0: "single", 1: "married"}` with
default `0`, an absent input falls back to `0`, the invalid code `7`
errors, and the unknown label `"foo"` errors. -/
theorem enum_fallback_only_on_absent_witness :
    maritalCol.enum = some enumMarital
    ∧ maritalCol.indexBySlug = none
    ∧ enumMarital.vars ≠ []
    ∧ maritalCol.convert JValue.jnull = (JValue.jint 0, none)
    ∧ (maritalCol.convert (JValue.jint 7)).2.isSome = true
    ∧ (maritalCol.convert (JValue.jstr "foo")).2.isSome = true := by
  have h := enum_fallback_only_on_absent maritalCol enumMarital rfl rfl (by decide)
  refine ⟨rfl, rfl, by decide, ?_, ?_, ?_⟩
  · exact h.2.1 0 rfl (by decide)
  · exact h.2.2.2.1 7 (by decide)
  · exact h.2.2.2.2 "foo" (by decide) (by decide) (by decide)

/-- Claim C9: the normalized-label index of an enumerated descriptor is
built lazily by the first use of `json_to_python` and cached in
`index_by_slug`; a second use returns exactly the same descriptor state
and the same converter — so the index is computed at most once, and the
slug-to-code mapping the converter uses is the stored
`buildIndexBySlug` on every use. -/
theorem index_by_slug_lazy_cached (c : EnumCol) (e : Enum)
    (henum : c.enum = some e) (hidx : c.indexBySlug = none) :
    c.jsonToPython.1.indexBySlug = some (buildIndexBySlug e)
    ∧ c.jsonToPython.1.jsonToPython = c.jsonToPython
    ∧ c.jsonToPython.2
        = .withEnum e (buildIndexBySlug e) (enumFallback c.defaultValue e) := by
  refine ⟨?_, ?_, ?_⟩ <;> simp [EnumCol.jsonToPython, henum, hidx]

/-- Witness for C9, at the `{0: "single", 1: "married"}` descriptor. -/
theorem index_by_slug_lazy_cached_witness :
    maritalCol.enum = some enumMarital
    ∧ maritalCol.indexBySlug = none
    ∧ maritalCol.jsonToPython.1.indexBySlug = some (buildIndexBySlug enumMarital)
    ∧ buildIndexBySlug enumMarital = [("single", 0), ("married", 1)]
    ∧ maritalCol.jsonToPython.1.jsonToPython = maritalCol.jsonToPython :=
  ⟨rfl, rfl, (index_by_slug_lazy_cached maritalCol enumMarital rfl rfl).1, by decide,
   (index_by_slug_lazy_cached maritalCol enumMarital rfl rfl).2.1⟩

/-- Claim C8 is contradicted by the code: `Column.to_json` reads
`self.freq` on line 97, but no `freq` attribute is defined anywhere in
`columns.py` (the class declares none, `__init__` accepts none, and
`Prestation.__init__` even passes a `freq` keyword argument that
`Column.__init__` rejects), so the "pure projection" raises
`AttributeError` for every descriptor instead of returning the metadata
record. -/
theorem to_json_attribute_error (c : PyColumn) (h : c.freq = none) :
    Column.toJson c = .error "AttributeError: freq" := by
  simp [Column.toJson, h]

/-- Witness for C8's failing input: a plain `IntCol()` descriptor (and
its enumerated counterpart through `EnumCol.to_json`, which calls
`Column.to_json` first) raises instead of serializing. -/
theorem to_json_attribute_error_witness :
    intColPlain.freq = none
    ∧ Column.toJson intColPlain = .error "AttributeError: freq"
    ∧ EnumCol.toJson intColPlain (some enumMarital) = .error "AttributeError: freq" := by
  have h := to_json_attribute_error intColPlain rfl
  exact ⟨rfl, h, by simp [EnumCol.toJson, h]⟩


end OpenFisca
